import Mathlib

/-!
Verification of the anchor-construction and delegated-signing pipeline of the
self-sovereign-agent repository.  The definitions below are a shallow embedding,
translated from the Python sources:

* `src/letta/anchor_state_tool.py`   (canonical state hashing, gas estimation flow)
* `src/letta/wallet_tool.py`         (`SelfSovereignWallet.anchor_state`)
* `src/mcp-lit-signer/server.py`     (Lit PKP signing MCP server: authentication,
  session management, transaction building/digesting/serialization, action anchors)
* `src/scripts/lit/ouroboros_test.py` (stand-alone PKP anchoring script)

Bytes are modelled as `Nat` (each < 256), byte strings as `List Nat`, machine
integers as `Nat` with explicit `% 2 ^ 64` (Keccak lanes) or `% 2 ^ 32`
(SHA-256 words) where overflow matters.  All definitions are executable so
concrete claims can be settled by `decide`.
-/

set_option maxRecDepth 100000
set_option maxHeartbeats 8000000

/-! ## Byte-level helpers -/

/-- Minimal big-endian representation of a natural number, fuel-based so that it
reduces in the kernel.  `natBEAux fuel n` is correct whenever `n ≤ fuel`. -/
def natBEAux : Nat → Nat → List Nat
  | 0, _ => []
  | fuel + 1, n => if n = 0 then [] else natBEAux fuel (n / 256) ++ [n % 256]

/-- Minimal big-endian byte representation of a natural number (empty for 0).
This is how the Python `rlp` library encodes non-negative integers. -/
def natBE (n : Nat) : List Nat := natBEAux n n

/-- Python `n.to_bytes(32, 'big')`: exactly 32 big-endian bytes (for `n < 2 ^ 256`). -/
def natBytes32 (n : Nat) : List Nat :=
  (List.range 32).map fun i => (n >>> (8 * (31 - i))) &&& 0xFF

/-- Value of a big-endian byte string. -/
def beVal (bs : List Nat) : Nat := bs.foldl (fun acc b => acc * 256 + b) 0

/-- Lower-case hex digit for a value below 16. -/
def hexDigit (n : Nat) : Char :=
  if n < 10 then Char.ofNat (48 + n) else Char.ofNat (87 + n)

/-- Python `bytes.hex()`: lower-case hex string of a byte list. -/
def bytesHex (bs : List Nat) : String :=
  String.mk (bs.foldr (fun b acc => hexDigit (b / 16) :: hexDigit (b % 16) :: acc) [])

/-- Value of a single hex digit character (supports both cases). -/
def hexCharVal (c : Char) : Nat :=
  if c.toNat ≥ 97 then c.toNat - 87
  else if c.toNat ≥ 65 then c.toNat - 55
  else c.toNat - 48

/-- Python `bytes.fromhex`: pairs of hex digit characters to bytes. -/
def hexToBytes : List Char → List Nat
  | c₁ :: c₂ :: rest => (16 * hexCharVal c₁ + hexCharVal c₂) :: hexToBytes rest
  | _ => []

/-- UTF-8 encoding of a single character. -/
def utf8Char (c : Char) : List Nat :=
  let n := c.toNat
  if n < 0x80 then [n]
  else if n < 0x800 then [0xC0 ||| (n >>> 6), 0x80 ||| (n &&& 0x3F)]
  else if n < 0x10000 then
    [0xE0 ||| (n >>> 12), 0x80 ||| ((n >>> 6) &&& 0x3F), 0x80 ||| (n &&& 0x3F)]
  else
    [0xF0 ||| (n >>> 18), 0x80 ||| ((n >>> 12) &&& 0x3F),
     0x80 ||| ((n >>> 6) &&& 0x3F), 0x80 ||| (n &&& 0x3F)]

/-- Python `str.encode('utf-8')` on a Lean string. -/
def utf8 (s : String) : List Nat := s.data.foldr (fun c acc => utf8Char c ++ acc) []

/-! ## Keccak-256 (the hash used by `web3.keccak` / `eth_utils.keccak`) -/

/-- Rotate a 64-bit lane left by `n` (`0 ≤ n < 64`). -/
def rotl64 (x n : Nat) : Nat := ((x <<< n) ||| (x >>> (64 - n))) % (2 ^ 64)

/-- Keccak round constants. -/
def keccakRC : List Nat :=
  [1, 32898, 9223372036854808714, 9223372039002292224,
   32907, 2147483649, 9223372039002292353, 9223372036854808585,
   138, 136, 2147516425, 2147483658,
   2147516555, 9223372036854775947, 9223372036854808713, 9223372036854808579,
   9223372036854808578, 9223372036854775936, 32778, 9223372039002259466,
   9223372039002292353, 9223372036854808704, 2147483649, 9223372039002292232]

/-- Keccak rotation offsets, indexed by lane position `x + 5 * y`. -/
def rhoOffsets : List Nat :=
  [0, 1, 62, 28, 27] ++ [36, 44, 6, 55, 20] ++ [3, 10, 43, 25, 39] ++
    [41, 45, 15, 21, 8] ++ [18, 2, 61, 56, 14]

/-- Keccak θ step on a 25-lane state. -/
def theta (s : List Nat) : List Nat :=
  let c := (List.range 5).map fun x =>
    s.getD x 0 ^^^ s.getD (x + 5) 0 ^^^ s.getD (x + 10) 0 ^^^ s.getD (x + 15) 0 ^^^ s.getD (x + 20) 0
  let d := (List.range 5).map fun x => c.getD ((x + 4) % 5) 0 ^^^ rotl64 (c.getD ((x + 1) % 5) 0) 1
  (List.range 25).map fun i => s.getD i 0 ^^^ d.getD (i % 5) 0

/-- Keccak ρ and π steps combined. -/
def rhoPi (s : List Nat) : List Nat :=
  (List.range 25).map fun t =>
    let src := (t % 5 + 3 * (t / 5)) % 5 + 5 * (t % 5)
    rotl64 (s.getD src 0) (rhoOffsets.getD src 0)

/-- Keccak χ step. -/
def chi (s : List Nat) : List Nat :=
  (List.range 25).map fun i =>
    let x := i % 5
    let y := i / 5
    s.getD i 0 ^^^ ((s.getD ((x + 1) % 5 + 5 * y) 0 ^^^ 0xFFFFFFFFFFFFFFFF) &&& s.getD ((x + 2) % 5 + 5 * y) 0)

/-- The Keccak-f[1600] permutation (24 rounds; ι is the constant xor into lane 0). -/
def keccakF (s : List Nat) : List Nat :=
  keccakRC.foldl (fun st rc =>
    let st' := chi (rhoPi (theta st))
    (st'.headD 0 ^^^ rc) :: st'.tail) s

/-- Load a little-endian 64-bit lane from up to 8 bytes. -/
def loadLane (bs : List Nat) : Nat :=
  bs.getD 0 0 ||| (bs.getD 1 0 <<< 8) ||| (bs.getD 2 0 <<< 16) ||| (bs.getD 3 0 <<< 24) |||
  (bs.getD 4 0 <<< 32) ||| (bs.getD 5 0 <<< 40) ||| (bs.getD 6 0 <<< 48) ||| (bs.getD 7 0 <<< 56)

/-- Absorb one 136-byte block into the sponge state and permute. -/
def absorbBlock (s : List Nat) (block : List Nat) : List Nat :=
  let lanes := (List.range 17).map fun j => loadLane ((block.drop (8 * j)).take 8)
  keccakF ((List.range 25).map fun i => s.getD i 0 ^^^ (if i < 17 then lanes.getD i 0 else 0))

/-- Original Keccak multi-rate padding (domain byte `0x01`), rate 136 bytes. -/
def keccakPad (msg : List Nat) : List Nat :=
  let padLen := 136 - msg.length % 136
  if padLen = 1 then msg ++ [0x81]
  else msg ++ [0x01] ++ List.replicate (padLen - 2) 0 ++ [0x80]

/-- Split a byte string into 136-byte blocks (fuel-based for kernel reduction). -/
def chunks136 : Nat → List Nat → List (List Nat)
  | 0, _ => []
  | _, [] => []
  | fuel + 1, l => l.take 136 :: chunks136 fuel (l.drop 136)

/-- Little-endian bytes of a 64-bit lane. -/
def laneBytes (x : Nat) : List Nat :=
  (List.range 8).map fun k => (x >>> (8 * k)) &&& 0xFF

/-- Keccak-256 of a byte string, as used by `web3.keccak` and `eth_utils.keccak`. -/
def keccak256 (msg : List Nat) : List Nat :=
  let padded := keccakPad msg
  let final := (chunks136 padded.length padded).foldl absorbBlock (List.replicate 25 0)
  laneBytes (final.getD 0 0) ++ laneBytes (final.getD 1 0) ++
  laneBytes (final.getD 2 0) ++ laneBytes (final.getD 3 0)

example : bytesHex (keccak256 []) =
    "c5d2460186f7233c927e7db2dcc703c0e500b653ca82273b7bfad8045d85a470" := by decide

example : bytesHex (keccak256 (utf8 "abc")) =
    "4e03657aea45a94fc7d47ba826c8d667c0d1e6e33a64a036ec44f58fa12d6c45" := by decide

/-! ## SHA-256 (the hash used by `hashlib.sha256` in `wallet_tool.py`) -/

/-- Rotate a 32-bit word right by `n` (`0 < n < 32`). -/
def rotr32 (x n : Nat) : Nat := ((x >>> n) ||| (x <<< (32 - n))) % (2 ^ 32)

/-- SHA-256 round constants. -/
def sha256K : List Nat :=
  [1116352408, 1899447441, 3049323471, 3921009573, 961987163, 1508970993,
   2453635748, 2870763221, 3624381080, 310598401, 607225278, 1426881987,
   1925078388, 2162078206, 2614888103, 3248222580, 3835390401, 4022224774,
   264347078, 604807628, 770255983, 1249150122, 1555081692, 1996064986,
   2554220882, 2821834349, 2952996808, 3210313671, 3336571891, 3584528711,
   113926993, 338241895, 666307205, 773529912, 1294757372, 1396182291,
   1695183700, 1986661051, 2177026350, 2456956037, 2730485921, 2820302411,
   3259730800, 3345764771, 3516065817, 3600352804, 4094571909, 275423344,
   430227734, 506948616, 659060556, 883997877, 958139571, 1322822218,
   1537002063, 1747873779, 1955562222, 2024104815, 2227730452, 2361852424,
   2428436474, 2756734187, 3204031479, 3329325298]

/-- SHA-256 initial hash value. -/
def sha256Init : List Nat :=
  [1779033703, 3144134277, 1013904242, 2773480762,
   1359893119, 2600822924, 528734635, 1541459225]

/-- SHA-256 message padding: `0x80`, zeros, then the 64-bit big-endian bit length. -/
def sha256Pad (msg : List Nat) : List Nat :=
  let padZeros := (119 - msg.length % 64) % 64
  msg ++ [0x80] ++ List.replicate padZeros 0 ++
    ((List.range 8).map fun i => (8 * msg.length >>> (8 * (7 - i))) &&& 0xFF)

/-- Big-endian 32-bit word from 4 bytes. -/
def word32 (bs : List Nat) : Nat :=
  (bs.getD 0 0 <<< 24) ||| (bs.getD 1 0 <<< 16) ||| (bs.getD 2 0 <<< 8) ||| bs.getD 3 0

/-- SHA-256 message schedule: 64 words from a 64-byte block. -/
def sha256Schedule (block : List Nat) : List Nat :=
  let w16 := (List.range 16).map fun j => word32 ((block.drop (4 * j)).take 4)
  (List.range 48).foldl (fun w _ =>
    let n := w.length
    let w15 := w.getD (n - 15) 0
    let w2 := w.getD (n - 2) 0
    let s0 := rotr32 w15 7 ^^^ rotr32 w15 18 ^^^ (w15 >>> 3)
    let s1 := rotr32 w2 17 ^^^ rotr32 w2 19 ^^^ (w2 >>> 10)
    w ++ [(w.getD (n - 16) 0 + s0 + w.getD (n - 7) 0 + s1) % 2 ^ 32]) w16

/-- SHA-256 compression of one block into the running hash. -/
def sha256Compress (h : List Nat) (block : List Nat) : List Nat :=
  let w := sha256Schedule block
  let final := (List.range 64).foldl (fun v i =>
    let a := v.getD 0 0
    let b := v.getD 1 0
    let c := v.getD 2 0
    let d := v.getD 3 0
    let e := v.getD 4 0
    let f := v.getD 5 0
    let g := v.getD 6 0
    let hh := v.getD 7 0
    let s1 := rotr32 e 6 ^^^ rotr32 e 11 ^^^ rotr32 e 25
    let ch := (e &&& f) ^^^ ((e ^^^ 0xFFFFFFFF) &&& g)
    let t1 := (hh + s1 + ch + sha256K.getD i 0 + w.getD i 0) % 2 ^ 32
    let s0 := rotr32 a 2 ^^^ rotr32 a 13 ^^^ rotr32 a 22
    let mj := (a &&& b) ^^^ (a &&& c) ^^^ (b &&& c)
    let t2 := (s0 + mj) % 2 ^ 32
    [(t1 + t2) % 2 ^ 32, a, b, c, (d + t1) % 2 ^ 32, e, f, g]) h
  (List.range 8).map fun i => (h.getD i 0 + final.getD i 0) % 2 ^ 32

/-- Split a byte string into 64-byte blocks (fuel-based). -/
def chunks64 : Nat → List Nat → List (List Nat)
  | 0, _ => []
  | _, [] => []
  | fuel + 1, l => l.take 64 :: chunks64 fuel (l.drop 64)

/-- SHA-256 of a byte string, as computed by Python `hashlib.sha256(...).digest()`. -/
def sha256 (msg : List Nat) : List Nat :=
  let padded := sha256Pad msg
  let final := (chunks64 padded.length padded).foldl sha256Compress sha256Init
  final.foldr (fun wrd acc =>
    ((List.range 4).map fun i => (wrd >>> (8 * (3 - i))) &&& 0xFF) ++ acc) []

example : bytesHex (sha256 []) =
    "e3b0c44298fc1c149afbf4c8996fb92427ae41e4649b934ca495991b7852b855" := by decide

example : bytesHex (sha256 (utf8 "abc")) =
    "ba7816bf8f01cfea414140de5dae2223b00361a396177a9cb410ff61f20015ad" := by decide

/-! ## Documents and Python `json.dumps`

`Json` models the Python values the repository serializes: strings, ints,
booleans, lists and string-keyed mappings (in insertion order).  `JList` and
`JObj` are specialised list types so that all functions are structurally
recursive and reduce in the kernel.
-/

mutual
inductive Json where
  | str : String → Json
  | int : Int → Json
  | bool : Bool → Json
  | arr : JList → Json
  | obj : JObj → Json
  deriving DecidableEq
inductive JList where
  | nil : JList
  | cons : Json → JList → JList
  deriving DecidableEq
inductive JObj where
  | nil : JObj
  | cons : String → Json → JObj → JObj
  deriving DecidableEq
end

/-- Build a `JList` from a Lean list. -/
def JList.ofList : List Json → JList
  | [] => .nil
  | x :: t => .cons x (JList.ofList t)

/-- Build a `JObj` from a Lean association list (in insertion order). -/
def JObj.ofList : List (String × Json) → JObj
  | [] => .nil
  | (k, v) :: t => .cons k v (JObj.ofList t)

/-- Entries of a `JObj` in insertion order. -/
def JObj.toList : JObj → List (String × Json)
  | .nil => []
  | .cons k v t => (k, v) :: JObj.toList t

/-- Lexicographic (code-point) comparison of character lists, matching Python
string comparison: `a ≤ b` iff `a` is a prefix of `b` or at the first
difference the code point of `a` is smaller. -/
def charsLe : List Char → List Char → Bool
  | [], _ => true
  | _ :: _, [] => false
  | a :: as, b :: bs =>
    if a.toNat < b.toNat then true
    else if b.toNat < a.toNat then false
    else charsLe as bs

/-- Python `a <= b` on strings (code-point lexicographic). -/
def strLeB (a b : String) : Bool := charsLe a.data b.data

/-- Key order on pairs whose first component is the (raw) mapping key; this is
the order `json.dumps(..., sort_keys=True)` sorts entries by. -/
def keyLE {α : Type} (p q : String × α) : Prop := strLeB p.1 q.1 = true

instance {α : Type} : DecidableRel (@keyLE α) := fun p q =>
  inferInstanceAs (Decidable (strLeB p.1 q.1 = true))

/-- Sort entries by key, as `sort_keys=True` does. -/
def sortByKey {α : Type} (l : List (String × α)) : List (String × α) :=
  List.insertionSort keyLE l

/-- Lower-case 4-digit hex, for `\uXXXX` escapes. -/
def hex4 (n : Nat) : String :=
  String.mk [hexDigit (n / 4096 % 16), hexDigit (n / 256 % 16), hexDigit (n / 16 % 16), hexDigit (n % 16)]

/-- Escape of one character inside a JSON string literal, following CPython's
`json.encoder.py_encode_basestring_ascii` (`ensure_ascii=True`, the default
used throughout the repository). -/
def escChar (c : Char) : String :=
  let n := c.toNat
  if n = 34 then "\\\""
  else if n = 92 then "\\\\"
  else if n = 8 then "\\b"
  else if n = 9 then "\\t"
  else if n = 10 then "\\n"
  else if n = 12 then "\\f"
  else if n = 13 then "\\r"
  else if 32 ≤ n ∧ n ≤ 126 then String.singleton c
  else if n < 0x10000 then "\\u" ++ hex4 n
  else "\\u" ++ hex4 (0xD800 + ((n - 0x10000) >>> 10)) ++
       "\\u" ++ hex4 (0xDC00 + ((n - 0x10000) &&& 0x3FF))

/-- Python JSON string literal (with surrounding quotes). -/
def pyStr (s : String) : String :=
  "\"" ++ s.data.foldr (fun c acc => escChar c ++ acc) "" ++ "\""

/-- Python `repr` of an int (decimal, no exponent). -/
def intRepr (n : Int) : String :=
  if n < 0 then "-" ++ Nat.repr n.natAbs else Nat.repr n.natAbs

/-- Join strings with a separator. -/
def joinSep (sep : String) : List String → String
  | [] => ""
  | [x] => x
  | x :: y :: t => x ++ sep ++ joinSep sep (y :: t)

/-- Emit sorted object entries: `"key"<ksep><serialized value>` joined by `isep`. -/
def emitObj (isep ksep : String) (pairs : List (String × String)) : String :=
  "\x7b" ++ joinSep isep (pairs.map fun p => pyStr p.1 ++ ksep ++ p.2) ++ "\x7d"

mutual
/-- Python `json.dumps(d, sort_keys=True, separators=(isep, ksep))`. -/
def Json.dumpsWith (isep ksep : String) : Json → String
  | .str s => pyStr s
  | .int n => intRepr n
  | .bool b => if b then "true" else "false"
  | .arr xs => "[" ++ JList.dumpsWith isep ksep xs ++ "]"
  | .obj kvs => emitObj isep ksep (sortByKey (JObj.dumpPairs isep ksep kvs))
/-- Array elements serialized and joined by `isep`. -/
def JList.dumpsWith (isep ksep : String) : JList → String
  | .nil => ""
  | .cons x .nil => Json.dumpsWith isep ksep x
  | .cons x (.cons y t) =>
    Json.dumpsWith isep ksep x ++ isep ++ JList.dumpsWith isep ksep (.cons y t)
/-- Object entries as (raw key, serialized value) pairs, in insertion order. -/
def JObj.dumpPairs (isep ksep : String) : JObj → List (String × String)
  | .nil => []
  | .cons k v t => (k, Json.dumpsWith isep ksep v) :: JObj.dumpPairs isep ksep t
end

mutual
/-- Serialization that emits object entries in the order given (no sorting);
used only to express that `dumpsWith` factors through `sortJson`. -/
def Json.dumpsRaw (isep ksep : String) : Json → String
  | .str s => pyStr s
  | .int n => intRepr n
  | .bool b => if b then "true" else "false"
  | .arr xs => "[" ++ JList.dumpsRaw isep ksep xs ++ "]"
  | .obj kvs => emitObj isep ksep (JObj.rawPairs isep ksep kvs)
def JList.dumpsRaw (isep ksep : String) : JList → String
  | .nil => ""
  | .cons x .nil => Json.dumpsRaw isep ksep x
  | .cons x (.cons y t) =>
    Json.dumpsRaw isep ksep x ++ isep ++ JList.dumpsRaw isep ksep (.cons y t)
def JObj.rawPairs (isep ksep : String) : JObj → List (String × String)
  | .nil => []
  | .cons k v t => (k, Json.dumpsRaw isep ksep v) :: JObj.rawPairs isep ksep t
end

mutual
/-- Recursively sort every object of a document by key: the canonical form.
Two documents have identical logical content (same key-value structure, keys
possibly inserted in different orders) exactly when their canonical forms are
equal. -/
def Json.sortJson : Json → Json
  | .str s => .str s
  | .int n => .int n
  | .bool b => .bool b
  | .arr xs => .arr (JList.sortJson xs)
  | .obj kvs => .obj (JObj.ofList (sortByKey (JObj.normPairs kvs)))
def JList.sortJson : JList → JList
  | .nil => .nil
  | .cons x t => .cons (Json.sortJson x) (JList.sortJson t)
def JObj.normPairs : JObj → List (String × Json)
  | .nil => []
  | .cons k v t => (k, Json.sortJson v) :: JObj.normPairs t
end

/-- Two documents have identical logical content but (possibly) different key
insertion order: their recursively key-sorted canonical forms coincide. -/
def Json.contentEq (d₁ d₂ : Json) : Prop := d₁.sortJson = d₂.sortJson

instance (d₁ d₂ : Json) : Decidable (Json.contentEq d₁ d₂) :=
  inferInstanceAs (Decidable (d₁.sortJson = d₂.sortJson))

/-- Compact serialization `json.dumps(d, sort_keys=True, separators=(',', ':'))`
as used in `anchor_state_tool.py` line 141 and `server.py` line 496. -/
def Json.dumpsCompact (d : Json) : String := Json.dumpsWith "," ":" d

/-- Default-separator serialization `json.dumps(d, sort_keys=True)` as used in
`ouroboros_test.py` line 193 and `wallet_tool.py` line 249 (inserts a space
after each comma and colon). -/
def Json.dumpsSortDefault (d : Json) : String := Json.dumpsWith ", " ": " d

example : Json.dumpsCompact
    (.obj (.cons "b" (.int 1) (.cons "a" (.arr (.cons (.int 1) (.cons (.int 2) .nil)))
      (.cons "c" (.obj (.cons "y" (.str "x") (.cons "x" (.bool true) .nil))) .nil)))) =
    "\x7b\"a\":[1,2],\"b\":1,\"c\":\x7b\"x\":true,\"y\":\"x\"\x7d\x7d" := by decide

example : Json.dumpsSortDefault
    (.obj (.cons "b" (.int 1) (.cons "a" (.arr (.cons (.int 1) (.cons (.int 2) .nil))) .nil))) =
    "\x7b\"a\": [1, 2], \"b\": 1\x7d" := by decide

example : Json.dumpsCompact (.obj (.cons "a" (.str "hé\n\"\\ \x07") .nil)) =
    "\x7b\"a\":\"h\\u00e9\\n\\\"\\\\ \\u0007\"\x7d" := by decide

example : Json.dumpsCompact (.obj (.cons "a" (.int (-5)) .nil)) = "\x7b\"a\":-5\x7d" := by decide

/-! ## Sorting commutes with serializing values (key order depends only on keys) -/

theorem orderedInsert_map_snd {α β : Type} (f : α → β) (p : String × α) (l : List (String × α)) :
    (List.orderedInsert keyLE p l).map (Prod.map id f) =
      List.orderedInsert keyLE (Prod.map id f p) (l.map (Prod.map id f)) := by
  induction l with
  | nil => rfl
  | cons q t ih =>
    simp only [List.orderedInsert, List.map_cons]
    by_cases h : keyLE p q
    · have h' : keyLE (Prod.map id f p) (Prod.map id f q) := h
      rw [if_pos h, if_pos h']
      simp
    · have h' : ¬ keyLE (Prod.map id f p) (Prod.map id f q) := h
      rw [if_neg h, if_neg h']
      simp [ih]

theorem sortByKey_map_snd {α β : Type} (f : α → β) (l : List (String × α)) :
    (sortByKey l).map (Prod.map id f) = sortByKey (l.map (Prod.map id f)) := by
  induction l with
  | nil => rfl
  | cons p t ih =>
    simp only [sortByKey, List.insertionSort, List.map_cons] at *
    rw [orderedInsert_map_snd, ih]

theorem JObj.rawPairs_ofList (isep ksep : String) (l : List (String × Json)) :
    JObj.rawPairs isep ksep (JObj.ofList l) = l.map (Prod.map id (Json.dumpsRaw isep ksep)) := by
  induction l with
  | nil => rfl
  | cons p t ih =>
    cases p
    simp [JObj.ofList, JObj.rawPairs, ih, Prod.map]

mutual
theorem Json.dumps_factor (isep ksep : String) : (d : Json) →
    Json.dumpsWith isep ksep d = Json.dumpsRaw isep ksep d.sortJson
  | .str _ => rfl
  | .int _ => rfl
  | .bool _ => rfl
  | .arr xs => by
    simp only [Json.dumpsWith, Json.dumpsRaw, Json.sortJson]
    rw [JList.dumps_factor_elems isep ksep xs]
  | .obj kvs => by
    simp only [Json.dumpsWith, Json.dumpsRaw, Json.sortJson]
    rw [JObj.dumpPairs_factor isep ksep kvs, ← sortByKey_map_snd, JObj.rawPairs_ofList]
theorem JList.dumps_factor_elems (isep ksep : String) : (xs : JList) →
    JList.dumpsWith isep ksep xs = JList.dumpsRaw isep ksep xs.sortJson
  | .nil => rfl
  | .cons x .nil => by
    simp only [JList.dumpsWith, JList.sortJson, JList.dumpsRaw]
    rw [Json.dumps_factor isep ksep x]
  | .cons x (.cons y t) => by
    simp only [JList.dumpsWith, JList.sortJson, JList.dumpsRaw]
    rw [Json.dumps_factor isep ksep x]
    have h := JList.dumps_factor_elems isep ksep (.cons y t)
    simp only [JList.sortJson] at h
    rw [h]
theorem JObj.dumpPairs_factor (isep ksep : String) : (kvs : JObj) →
    JObj.dumpPairs isep ksep kvs = (JObj.normPairs kvs).map (Prod.map id (Json.dumpsRaw isep ksep))
  | .nil => rfl
  | .cons k v t => by
    simp only [JObj.dumpPairs, JObj.normPairs, List.map_cons, Prod.map]
    rw [Json.dumps_factor isep ksep v, JObj.dumpPairs_factor isep ksep t]
    simp
end

/-! ## The canonical state hash (claim C1)

`anchor_my_state` (src/letta/anchor_state_tool.py lines 140-143):
```
state_json = json.dumps(state, sort_keys=True, separators=(',', ':'))
state_hash = w3.keccak(text=state_json)
```
-/

/-- The canonical state hash of `anchor_my_state`: Keccak-256 over the UTF-8
bytes of the compact sorted-key serialization. -/
def anchor_my_state_hash (d : Json) : List Nat := keccak256 (utf8 (Json.dumpsCompact d))

/-- Claim C1: for every pair of documents with identical logical content (same
key-value structure) but different key insertion order, the canonical hash
function of `anchor_my_state` produces the same commitment; and for every
document repeated applications return the same commitment (the function is
pure: no clock or randomness dependency). -/
theorem C1_hash_insertion_order_invariant (d₁ d₂ : Json) (h : Json.contentEq d₁ d₂) :
    anchor_my_state_hash d₁ = anchor_my_state_hash d₂ ∧
    anchor_my_state_hash d₁ = anchor_my_state_hash d₁ ∧
    anchor_my_state_hash d₂ = anchor_my_state_hash d₂ := by
  refine ⟨?_, rfl, rfl⟩
  unfold anchor_my_state_hash Json.dumpsCompact
  rw [Json.dumps_factor, Json.dumps_factor, h]

/-- Document `{"b": [1, 2], "a": 1, "c": {"y": 2, "x": "s"}}` built in one
insertion order. -/
def docC1a : Json :=
  .obj (.cons "b" (.arr (.cons (.int 1) (.cons (.int 2) .nil)))
    (.cons "a" (.int 1)
      (.cons "c" (.obj (.cons "y" (.int 2) (.cons "x" (.str "s") .nil))) .nil)))

/-- The same logical document built in a different key insertion order (both at
the top level and inside the nested mapping). -/
def docC1b : Json :=
  .obj (.cons "a" (.int 1)
    (.cons "c" (.obj (.cons "x" (.str "s") (.cons "y" (.int 2) .nil)))
      (.cons "b" (.arr (.cons (.int 1) (.cons (.int 2) .nil))) .nil)))

theorem C1_witness :
    Json.contentEq docC1a docC1b ∧
    (anchor_my_state_hash docC1a = anchor_my_state_hash docC1b ∧
     anchor_my_state_hash docC1a = anchor_my_state_hash docC1a ∧
     anchor_my_state_hash docC1b = anchor_my_state_hash docC1b) :=
  ⟨by decide, C1_hash_insertion_order_invariant docC1a docC1b (by decide)⟩

/-! ## RLP encoding and EIP-1559 transactions

Translating `compute_tx_hash` and `serialize_signed_tx`
(src/mcp-lit-signer/server.py lines 175-190 and 230-251; the same code appears
verbatim in src/scripts/lit/ouroboros_test.py lines 82-99 and 140-164).
-/

/-- RLP length header: `base + len` for short payloads, else
`base + 55 + len(len)` followed by the big-endian length. -/
def rlpHeader (base : Nat) (payload : List Nat) : List Nat :=
  if payload.length ≤ 55 then [base + payload.length]
  else (base + 55 + (natBE payload.length).length) :: natBE payload.length

/-- RLP encoding of a byte string. -/
def rlpBytes (bs : List Nat) : List Nat :=
  if bs.length = 1 ∧ bs.headD 0 < 0x80 then bs else rlpHeader 0x80 bs ++ bs

/-- An item of the flat RLP lists the repository encodes: a non-negative
integer, a byte string, or the (always empty) access list. -/
inductive RLPItem where
  | natItem : Nat → RLPItem
  | bytesItem : List Nat → RLPItem
  | emptyList : RLPItem
  deriving DecidableEq

/-- Encoding of one item (`rlp` encodes ints minimal big-endian). -/
def RLPItem.enc : RLPItem → List Nat
  | .natItem n => rlpBytes (natBE n)
  | .bytesItem bs => rlpBytes bs
  | .emptyList => [0xC0]

/-- `rlp.encode` of a flat list of items. -/
def rlpList (items : List RLPItem) : List Nat :=
  let payload := (items.map RLPItem.enc).flatten
  rlpHeader 0xC0 payload ++ payload

example : rlpList [.bytesItem (utf8 "cat"), .bytesItem (utf8 "dog")] =
    [0xC8, 0x83, 0x63, 0x61, 0x74, 0x83, 0x64, 0x6F, 0x67] := by decide

example : rlpList [.natItem 0, .emptyList] = [0xC2, 0x80, 0xC0] := by decide

/-- The unsigned EIP-1559 transaction dict built by `build_anchor_transaction`
(`type` is always 2 and the access list always empty, so neither is a field). -/
structure Tx where
  chainId : Nat
  nonce : Nat
  maxPriorityFeePerGas : Nat
  maxFeePerGas : Nat
  gas : Nat
  /-- the `'to'` entry of the transaction dict -/
  toAddr : List Nat
  value : Nat
  data : List Nat
  deriving DecidableEq

/-- The ordered field list of `compute_tx_hash`:
`[chainId, nonce, maxPriorityFeePerGas, maxFeePerGas, gas, to, value, data, accessList]`. -/
def txFields (tx : Tx) : List RLPItem :=
  [.natItem tx.chainId, .natItem tx.nonce, .natItem tx.maxPriorityFeePerGas,
   .natItem tx.maxFeePerGas, .natItem tx.gas, .bytesItem tx.toAddr, .natItem tx.value,
   .bytesItem tx.data, .emptyList]

/-- `LitSignerService.compute_tx_hash`: `keccak(b'\x02' + rlp.encode(tx_fields))`. -/
def compute_tx_hash (tx : Tx) : List Nat :=
  keccak256 (0x02 :: rlpList (txFields tx))

/-- A raw secp256k1 signature as returned by the Lit signing oracle
(`r` and `s` parsed from hex, `recid` 0 or 1). -/
structure Sig where
  r : Nat
  s : Nat
  recid : Nat
  deriving DecidableEq

/-- `LitSignerService.serialize_signed_tx`: type byte `0x02` followed by the RLP
list of the nine unsigned fields with `v = recid`, `r.to_bytes(32,'big')` and
`s.to_bytes(32,'big')` appended — exactly as returned by the oracle. -/
def serialize_signed_tx (tx : Tx) (sig : Sig) : List Nat :=
  0x02 :: rlpList (txFields tx ++
    [.natItem sig.recid, .bytesItem (natBytes32 sig.r), .bytesItem (natBytes32 sig.s)])

/-- `contract.encode_abi('anchorState', [token_id, state_hash, state_uri])`:
4-byte selector, then the static head (uint256 token, bytes32 hash, offset of
the dynamic string), then the string length and its right-padded bytes. -/
def encode_abi_anchorState (token_id : Nat) (state_hash : List Nat) (state_uri : String) : List Nat :=
  let uriBytes := utf8 state_uri
  (keccak256 (utf8 "anchorState(uint256,bytes32,string)")).take 4 ++
  natBytes32 token_id ++ state_hash ++ natBytes32 0x60 ++
  natBytes32 uriBytes.length ++ uriBytes ++ List.replicate ((32 - uriBytes.length % 32) % 32) 0

example : ((keccak256 (utf8 "anchorState(uint256,bytes32,string)")).take 4) =
    [0x05, 0x72, 0x76, 0x21] := by decide

/-- `LitSignerService.build_anchor_transaction` (server.py lines 152-173): the
chain reads (`eth_getTransactionCount`, latest base fee) are inputs; the tip is
the constant 1 gwei, `max_fee = base_fee * 2 + max_priority_fee`, and the gas
limit is the constant 200000. -/
def build_anchor_transaction (contract_address : List Nat) (nonce base_fee : Nat)
    (token_id : Nat) (state_hash : List Nat) (state_uri : String) : Tx :=
  let max_priority_fee := 1000000000
  { chainId := 84532
    nonce := nonce
    maxPriorityFeePerGas := max_priority_fee
    maxFeePerGas := base_fee * 2 + max_priority_fee
    gas := 200000
    toAddr := contract_address
    value := 0
    data := encode_abi_anchorState token_id state_hash state_uri }

theorem natBytes32_length (n : Nat) : (natBytes32 n).length = 32 := by
  simp [natBytes32]

theorem keccak256_length (msg : List Nat) : (keccak256 msg).length = 32 := by
  simp [keccak256, laneBytes]

/-! ## Claim C3: the signing digest -/

/-- A concrete 20-byte contract address for tests. -/
def addrA : List Nat := hexToBytes "1111222233334444555566667777888899990000".data

/-- A concrete transaction for digest sensitivity checks. -/
def txC3 : Tx :=
  { chainId := 84532, nonce := 7, maxPriorityFeePerGas := 1000000000,
    maxFeePerGas := 2000000001, gas := 200000,
    toAddr := addrA, value := 0, data := [0xDE, 0xAD, 0xBE, 0xEF] }

/-- Claim C3: `compute_tx_hash` is a pure deterministic function of the
transaction only — it returns the 32-byte Keccak-256 hash of the type tag
`0x02` followed by the RLP encoding of the ordered field list `[chainId, nonce,
maxPriorityFeePerGas, maxFeePerGas, gas, to, value, data, accessList]`; two
field-identical transactions yield identical digests, and changing the nonce
alone changes the digest (nonce sensitivity is established at a concrete
transaction, which is the strongest form of the statement that holds for an
actual 256-bit hash). -/
theorem C3_compute_digest_pure (tx₁ tx₂ : Tx)
    (h : tx₁.chainId = tx₂.chainId ∧ tx₁.nonce = tx₂.nonce ∧
         tx₁.maxPriorityFeePerGas = tx₂.maxPriorityFeePerGas ∧
         tx₁.maxFeePerGas = tx₂.maxFeePerGas ∧ tx₁.gas = tx₂.gas ∧
         tx₁.toAddr = tx₂.toAddr ∧ tx₁.value = tx₂.value ∧ tx₁.data = tx₂.data) :
    compute_tx_hash tx₁ = compute_tx_hash tx₂ ∧
    compute_tx_hash tx₁ = keccak256 (0x02 :: rlpList (txFields tx₁)) ∧
    (compute_tx_hash tx₁).length = 32 ∧
    compute_tx_hash txC3 ≠ compute_tx_hash { txC3 with nonce := txC3.nonce + 1 } := by
  obtain ⟨h₁, h₂, h₃, h₄, h₅, h₆, h₇, h₈⟩ := h
  have htx : tx₁ = tx₂ := by
    cases tx₁
    cases tx₂
    simp_all
  exact ⟨by rw [htx], rfl, keccak256_length _, by decide⟩

theorem C3_witness :
    compute_tx_hash txC3 = compute_tx_hash txC3 ∧
    compute_tx_hash txC3 = keccak256 (0x02 :: rlpList (txFields txC3)) ∧
    (compute_tx_hash txC3).length = 32 ∧
    compute_tx_hash txC3 ≠ compute_tx_hash { txC3 with nonce := txC3.nonce + 1 } :=
  C3_compute_digest_pure txC3 txC3 ⟨rfl, rfl, rfl, rfl, rfl, rfl, rfl, rfl⟩

/-! ## Claim C4: no low-s normalization in the assembler -/

/-- The secp256k1 group order. -/
def secp256k1N : Nat := 0xFFFFFFFFFFFFFFFFFFFFFFFFFFFFFFFEBAAEDCE6AF48A03BBFD25E8CD0364141

/-- A concrete transaction for the signature-normalization check. -/
def txC4 : Tx :=
  { chainId := 84532, nonce := 3, maxPriorityFeePerGas := 1000000000,
    maxFeePerGas := 2000000001, gas := 200000,
    toAddr := addrA, value := 0, data := [0x05, 0x72, 0x76, 0x21] }

/-- A signature whose `s` component is in high-s form (`s > n / 2`). -/
def sigHighS : Sig :=
  { r := 0x7f3c2a195d8e41b6c90d12e34fa6b7c8d9e0f1a2b3c4d5e6f708192a3b4c5d6e,
    s := secp256k1N - 10, recid := 0 }

/-- Claim C4 is false on the code: `serialize_signed_tx` performs no low-s
normalization.  At this concrete transaction and high-s signature, the encoded
transaction's final 32 bytes are exactly the big-endian bytes of the original
high `s` (value above `n / 2`), and the encoding differs from the one a
normalizing assembler (`s ↦ n - s`, complemented recovery id) would produce. -/
theorem C4_counterexample :
    secp256k1N / 2 < sigHighS.s ∧
    (serialize_signed_tx txC4 sigHighS).drop ((serialize_signed_tx txC4 sigHighS).length - 32) =
      natBytes32 sigHighS.s ∧
    beVal ((serialize_signed_tx txC4 sigHighS).drop
      ((serialize_signed_tx txC4 sigHighS).length - 32)) = sigHighS.s ∧
    serialize_signed_tx txC4 sigHighS ≠
      serialize_signed_tx txC4 { r := sigHighS.r, s := secp256k1N - sigHighS.s, recid := 1 } := by
  decide

theorem rlpBytes32 (n : Nat) : RLPItem.enc (.bytesItem (natBytes32 n)) = 0xA0 :: natBytes32 n := by
  simp [RLPItem.enc, rlpBytes, rlpHeader, natBytes32_length n]

/-- The pre-signature prefix of an encoded signed transaction: everything up to
(but not including) the RLP items of `r` and `s`. -/
def signedTxPrefix (tx : Tx) (sig : Sig) : List Nat :=
  0x02 :: (rlpHeader 0xC0 (((txFields tx ++
      [RLPItem.natItem sig.recid, RLPItem.bytesItem (natBytes32 sig.r),
       RLPItem.bytesItem (natBytes32 sig.s)]).map RLPItem.enc).flatten) ++
    (((txFields tx).map RLPItem.enc).flatten ++ RLPItem.enc (RLPItem.natItem sig.recid)))

theorem serialize_signed_tx_suffix (tx : Tx) (sig : Sig) :
    serialize_signed_tx tx sig =
      signedTxPrefix tx sig ++ ((0xA0 :: natBytes32 sig.r) ++ (0xA0 :: natBytes32 sig.s)) := by
  simp [serialize_signed_tx, signedTxPrefix, rlpList, List.map_append, List.flatten_append,
    rlpBytes32, List.append_assoc]

/-- Claim C4 amended: the assembler performs no signature normalization at all —
for every transaction and every oracle signature the encoded transaction ends
with the RLP items of `r` and `s` exactly as provided (32 big-endian bytes
each, `0xA0` length prefixes), whether or not `s` is in low-s form. -/
theorem C4_amended_sig_encoded_verbatim (tx : Tx) (sig : Sig) :
    ∃ pre, serialize_signed_tx tx sig =
      pre ++ ((0xA0 :: natBytes32 sig.r) ++ (0xA0 :: natBytes32 sig.s)) :=
  ⟨signedTxPrefix tx sig, serialize_signed_tx_suffix tx sig⟩

/-! ## Claim C2: the hashing copies across the repository -/

theorem charsLe_total (a : List Char) : ∀ b, charsLe a b = true ∨ charsLe b a = true := by
  induction a with
  | nil => intro b; left; rfl
  | cons c t ih =>
    intro b
    cases b with
    | nil => right; rfl
    | cons d u =>
      by_cases h₁ : c.toNat < d.toNat
      · left; simp [charsLe, h₁]
      · by_cases h₂ : d.toNat < c.toNat
        · right; simp [charsLe, h₂]
        · rcases ih u with h | h
          · left; simp [charsLe, h₁, h₂, h]
          · right; simp [charsLe, h₁, h₂, h]

theorem charsLe_trans (a : List Char) :
    ∀ b c, charsLe a b = true → charsLe b c = true → charsLe a c = true := by
  induction a with
  | nil => intro b c _ _; rfl
  | cons x t ih =>
    intro b c hab hbc
    cases b with
    | nil => simp [charsLe] at hab
    | cons y u =>
      cases c with
      | nil => simp [charsLe] at hbc
      | cons z v =>
        simp only [charsLe] at hab hbc ⊢
        by_cases hxy : x.toNat < y.toNat
        · by_cases hyz : y.toNat < z.toNat
          · simp [show x.toNat < z.toNat by omega]
          · by_cases hzy : z.toNat < y.toNat
            · simp [hyz, hzy] at hbc
            · simp [show x.toNat < z.toNat by omega]
        · by_cases hyx : y.toNat < x.toNat
          · simp [hxy, hyx] at hab
          · by_cases hyz : y.toNat < z.toNat
            · simp [show x.toNat < z.toNat by omega]
            · by_cases hzy : z.toNat < y.toNat
              · simp [hyz, hzy] at hbc
              · have hxz : ¬ x.toNat < z.toNat := by omega
                have hzx : ¬ z.toNat < x.toNat := by omega
                simp only [hxy, hyx, if_neg, if_false] at hab
                simp only [hyz, hzy, if_neg, if_false] at hbc
                simp [hxz, hzx, ih u v hab hbc]

instance {α : Type} : IsTotal (String × α) keyLE where
  total p q := by
    rcases charsLe_total p.1.data q.1.data with h | h
    · left; exact h
    · right; exact h

instance {α : Type} : IsTrans (String × α) keyLE where
  trans p q r hpq hqr := charsLe_trans p.1.data q.1.data r.1.data hpq hqr

/-- The key-sorted entry list produced by the serializer is genuinely sorted. -/
theorem sortByKey_sorted {α : Type} (l : List (String × α)) :
    List.Sorted keyLE (sortByKey l) :=
  List.sorted_insertionSort keyLE l

/-- The hashing copy in `ouroboros_test.py` `main` (lines 193-194):
`json.dumps(cognitive_state, sort_keys=True)` — default separators, which
insert a space after every comma and colon — then Keccak-256. -/
def ouroboros_state_hash (d : Json) : List Nat := keccak256 (utf8 (Json.dumpsSortDefault d))

/-- The hashing copy in `WalletTool.anchor_state` (wallet_tool.py lines
248-250): `json.dumps(state_data, sort_keys=True)` (default separators) then
`hashlib.sha256`. -/
def wallet_anchor_state_hash (d : Json) : List Nat := sha256 (utf8 (Json.dumpsSortDefault d))

/-- The hashing copy applied to the composed action-anchor document in
`anchor_action_via_pkp` (server.py lines 496-497):
`json.dumps(..., sort_keys=True, separators=(',', ':'))` then Keccak-256. -/
def server_payload_hash (d : Json) : List Nat := keccak256 (utf8 (Json.dumpsCompact d))

/-- A small document of the shape the scripts hash. -/
def docC2 : Json :=
  .obj (.cons "agent_id" (.str "kieran")
    (.cons "timestamp" (.int 1) (.cons "test" (.str "x") .nil)))

/-- Claim C2 is false on the code: the repository's hashing copies do not all
use the compact no-whitespace Keccak-256 scheme.  At this concrete document the
`ouroboros_test.py` copy serializes with whitespace (default separators), so its
serialization and commitment differ from `anchor_my_state`'s, and the
`WalletTool.anchor_state` copy uses SHA-256, so its commitment differs too. -/
theorem C2_counterexample :
    Json.dumpsSortDefault docC2 ≠ Json.dumpsCompact docC2 ∧
    ouroboros_state_hash docC2 ≠ anchor_my_state_hash docC2 ∧
    wallet_anchor_state_hash docC2 ≠ anchor_my_state_hash docC2 := by
  refine ⟨by decide, by decide, by decide⟩

/-- Claim C2 amended: `anchor_my_state` and the server's action-anchor hashing
share one fixed scheme — Keccak-256 over the UTF-8 bytes of the compact
serialization whose mapping keys are emitted in sorted order with no inserted
whitespace — but the other two copies deviate: `ouroboros_test.py` sorts keys
yet uses the default (whitespace-inserting) separators, and
`WalletTool.anchor_state` uses SHA-256 over that default serialization. -/
theorem C2_amended_schemes :
    (∀ d : Json, server_payload_hash d = anchor_my_state_hash d) ∧
    (∀ d : Json, anchor_my_state_hash d = keccak256 (utf8 (Json.dumpsWith "," ":" d))) ∧
    (∀ isep ksep : String, ∀ kvs : JObj,
      List.Sorted keyLE (sortByKey (JObj.dumpPairs isep ksep kvs))) ∧
    ouroboros_state_hash docC2 = keccak256 (utf8 (Json.dumpsWith ", " ": " docC2)) ∧
    ouroboros_state_hash docC2 ≠ anchor_my_state_hash docC2 ∧
    wallet_anchor_state_hash docC2 = sha256 (utf8 (Json.dumpsWith ", " ": " docC2)) ∧
    wallet_anchor_state_hash docC2 ≠ anchor_my_state_hash docC2 :=
  ⟨fun _ => rfl, fun _ => rfl, fun _ _ kvs => sortByKey_sorted _,
   rfl, by decide, rfl, by decide⟩

/-! ## `datetime.utcfromtimestamp(ts).isoformat()` for integer timestamps -/

/-- Zero-padded two-digit decimal. -/
def pad2 (n : Nat) : String := if n < 10 then "0" ++ Nat.repr n else Nat.repr n

/-- Civil date (year, month, day) from days since 1970-01-01 (proleptic
Gregorian, non-negative days). -/
def civilFromDays (days : Nat) : Nat × Nat × Nat :=
  let z := days + 719468
  let era := z / 146097
  let doe := z % 146097
  let yoe := (doe - doe / 1460 + doe / 36524 - doe / 146096) / 365
  let y := yoe + era * 400
  let doy := doe - (365 * yoe + yoe / 4 - yoe / 100)
  let mp := (5 * doy + 2) / 153
  let d := doy - (153 * mp + 2) / 5 + 1
  let m := if mp < 10 then mp + 3 else mp - 9
  (if m ≤ 2 then y + 1 else y, m, d)

/-- `datetime.utcfromtimestamp(ts).isoformat()` for a non-negative integer
timestamp (microseconds are zero, so the format is `YYYY-MM-DDTHH:MM:SS`). -/
def isoFromTimestamp (ts : Nat) : String :=
  let (y, m, d) := civilFromDays (ts / 86400)
  let secs := ts % 86400
  Nat.repr y ++ "-" ++ pad2 m ++ "-" ++ pad2 d ++ "T" ++
    pad2 (secs / 3600) ++ ":" ++ pad2 (secs % 3600 / 60) ++ ":" ++ pad2 (secs % 60)

example : isoFromTimestamp 0 = "1970-01-01T00:00:00" := by decide
example : isoFromTimestamp 1700000000 = "2023-11-14T22:13:20" := by decide
example : isoFromTimestamp 1712345678 = "2024-04-05T19:34:38" := by decide

/-! ## The action anchor composition (claims C5 and C6)

Translating `anchor_action_via_pkp` steps 1-5 (server.py lines 452-511).  The
on-chain `getStateAnchor` read is an input: `some bytes` when the contract call
succeeds, `none` when it raises (line 466-467 substitutes the all-zero
sentinel string). -/

/-- Step 2: the creator state hash string — hex of the on-chain value, or the
all-zero sentinel `"0x" + "0" * 64` when no state was ever anchored. -/
def creator_state_hash_str (state_lookup : Option (List Nat)) : String :=
  match state_lookup with
  | some bs => "0x" ++ bytesHex bs
  | none => "0x" ++ String.mk (List.replicate 64 (Char.ofNat 48))

/-- Step 3: the `action_anchor_data` dict, with exactly the keys and values
built by server.py lines 474-492. -/
def action_anchor_doc (token_id : Nat)
    (content content_type description creator_agent_id creator_name : String)
    (collaborators : List String) (anchor_type : String)
    (creator_state_hash : String) (timestamp : Nat) : Json :=
  .obj (.cons "anchor_type" (.str "action")
    (.cons "action_subtype" (.str anchor_type)
      (.cons "work_product" (.obj (.cons "hash" (.str ("0x" ++ bytesHex (keccak256 (utf8 content))))
          (.cons "content_type" (.str content_type)
            (.cons "description" (.str description)
              (.cons "size_bytes" (.int (utf8 content).length) .nil)))))
        (.cons "creator" (.obj (.cons "token_id" (.int token_id)
            (.cons "agent_id" (.str creator_agent_id)
              (.cons "name" (.str creator_name)
                (.cons "state_hash_at_creation" (.str creator_state_hash) .nil)))))
          (.cons "collaborators" (.arr (JList.ofList (collaborators.map Json.str)))
            (.cons "timestamp" (.int timestamp)
              (.cons "timestamp_iso" (.str (isoFromTimestamp timestamp ++ "Z")) .nil)))))))

/-- The data the tool reports about the composed anchor (the `action_anchor`
entry of the success dict, lines 546-555). -/
structure ActionAnchor where
  combined_hash : List Nat
  work_product_hash : List Nat
  creator_state_hash : String
  state_uri : String
  timestamp : Nat
  deriving DecidableEq

/-- Steps 1-5 of `anchor_action_via_pkp`: hash the work product, resolve the
creator state commitment (sentinel on lookup failure — composition never
fails), build the metadata document, hash its compact sorted-key serialization
into the combined commitment, and form the state URI. -/
def compose_action (token_id : Nat)
    (content content_type description creator_agent_id creator_name : String)
    (collaborators : List String) (anchor_type : String)
    (state_lookup : Option (List Nat)) (timestamp : Nat) : ActionAnchor :=
  let csh := creator_state_hash_str state_lookup
  let doc := action_anchor_doc token_id content content_type description
    creator_agent_id creator_name collaborators anchor_type csh timestamp
  { combined_hash := keccak256 (utf8 (Json.dumpsCompact doc))
    work_product_hash := keccak256 (utf8 content)
    creator_state_hash := csh
    state_uri := "letta://agent/" ++ creator_agent_id ++ "/action/" ++ anchor_type ++ "/" ++
      Nat.repr timestamp
    timestamp := timestamp }

/-- A non-zero 32-byte on-chain state commitment used in the concrete checks. -/
def stateBytesA : List Nat := List.replicate 32 0x05

/-- The base concrete action-anchor composition for the sensitivity checks. -/
def actBase : ActionAnchor :=
  compose_action 1 "a" "t" "d" "ag" "n" ["c"] "authorship" (some stateBytesA) 1700000000

/-- Same call with only the work-product content changed. -/
def actContentVar : ActionAnchor :=
  compose_action 1 "b" "t" "d" "ag" "n" ["c"] "authorship" (some stateBytesA) 1700000000

/-- Same call with only the creator state commitment changed. -/
def actStateVar : ActionAnchor :=
  compose_action 1 "a" "t" "d" "ag" "n" ["c"] "authorship" (some (List.replicate 32 0x06)) 1700000000

/-- Same call with only the timestamp changed. -/
def actTsVar : ActionAnchor :=
  compose_action 1 "a" "t" "d" "ag" "n" ["c"] "authorship" (some stateBytesA) 1700000001

/-- Same call with only the description changed. -/
def actDescVar : ActionAnchor :=
  compose_action 1 "a" "t" "e" "ag" "n" ["c"] "authorship" (some stateBytesA) 1700000000

/-- Same call with only the collaborator list changed. -/
def actCollabVar : ActionAnchor :=
  compose_action 1 "a" "t" "d" "ag" "n" ["c", "x"] "authorship" (some stateBytesA) 1700000000

/-- Same call with the on-chain state lookup failing. -/
def actNoneVar : ActionAnchor :=
  compose_action 1 "a" "t" "d" "ag" "n" ["c"] "authorship" none 1700000000

theorem actBase_hex : bytesHex actBase.combined_hash =
    "9411dc26109989c197cbd0322fa13b7fb64738aed9840cf5c744c1b6de3706e2" := by decide

theorem actContentVar_hex : bytesHex actContentVar.combined_hash =
    "ee3f096ce922b6aa444b42ba09f484da67f89a0074ab68d8b118b7d7a76987d0" := by decide

theorem actStateVar_hex : bytesHex actStateVar.combined_hash =
    "1759d0d3b50ef4b22f1de8b9cde57f82c449cb595eda432a6ccfab4de35d761a" := by decide

theorem actTsVar_hex : bytesHex actTsVar.combined_hash =
    "a77fb08f980a3d65623257be5998f9b3a371f260de591585870eec4a31ce537c" := by decide

theorem actDescVar_hex : bytesHex actDescVar.combined_hash =
    "7e974b1de54784d0282449e5b9591505e8af9cda03d705bafb6e915ab0cd36ec" := by decide

theorem actCollabVar_hex : bytesHex actCollabVar.combined_hash =
    "1d9f90f441abe7643e9fab1ee256345ca4ab0307830f9888382626efe403a32b" := by decide

theorem actNoneVar_hex : bytesHex actNoneVar.combined_hash =
    "a2078540cb1024a6b52f3836956ba92cefce492c01ad658eb248f373beee67de" := by decide

theorem actBase_wph_hex : bytesHex actBase.work_product_hash =
    "3ac225168df54212a25c1c01fd35bebfea408fdac2e31ddd6f80a4bbf9a5f1cb" := by decide

/-- Byte strings with different hex renderings are different. -/
theorem hash_ne_of_hex_ne {a b : List Nat} {sa sb : String}
    (ha : bytesHex a = sa) (hb : bytesHex b = sb) (hne : sa ≠ sb) : a ≠ b :=
  fun h => hne (by rw [← ha, ← hb, h])

/-- Claim C5: for an action-anchor payload, changing the content, the creator
state commitment, or the timestamp (holding everything else fixed) changes the
combined commitment; changing only the description or only the collaborators
also changes the combined commitment but never changes the content commitment
(which is universally a function of the content alone).  The sensitivity parts
are established at a concrete payload (pinned against golden digests), the
strongest form that holds for an actual 256-bit hash; the content-commitment
invariance parts are universal. -/
theorem C5_combined_commitment_binding :
    (actContentVar.combined_hash ≠ actBase.combined_hash ∧
     actStateVar.combined_hash ≠ actBase.combined_hash ∧
     actTsVar.combined_hash ≠ actBase.combined_hash) ∧
    (actDescVar.combined_hash ≠ actBase.combined_hash ∧
     actCollabVar.combined_hash ≠ actBase.combined_hash) ∧
    (∀ tk : Nat, ∀ content ctype d₁ d₂ aid nm : String, ∀ co₁ co₂ : List String,
      ∀ aty : String, ∀ lk : Option (List Nat), ∀ ts : Nat,
      (compose_action tk content ctype d₁ aid nm co₁ aty lk ts).work_product_hash =
        (compose_action tk content ctype d₂ aid nm co₂ aty lk ts).work_product_hash) :=
  ⟨⟨hash_ne_of_hex_ne actContentVar_hex actBase_hex (by decide),
    hash_ne_of_hex_ne actStateVar_hex actBase_hex (by decide),
    hash_ne_of_hex_ne actTsVar_hex actBase_hex (by decide)⟩,
   ⟨hash_ne_of_hex_ne actDescVar_hex actBase_hex (by decide),
    hash_ne_of_hex_ne actCollabVar_hex actBase_hex (by decide)⟩,
   fun _ _ _ _ _ _ _ _ _ _ _ _ => rfl⟩

/-- Claim C6: composing an action anchor for a creator whose on-chain state
lookup fails does not fail — the creator state commitment is the all-zero
sentinel string (equal to the hex rendering of 32 zero bytes), and the
resulting combined commitment differs from the combined commitment of the same
call made with a real non-zero creator state commitment. -/
theorem C6_missing_state_sentinel :
    (∀ tk : Nat, ∀ content ctype desc aid nm : String, ∀ co : List String,
      ∀ aty : String, ∀ ts : Nat,
      (compose_action tk content ctype desc aid nm co aty none ts).creator_state_hash =
        "0x" ++ String.mk (List.replicate 64 (Char.ofNat 48))) ∧
    creator_state_hash_str none = creator_state_hash_str (some (List.replicate 32 0)) ∧
    actNoneVar.combined_hash ≠ actBase.combined_hash :=
  ⟨fun _ _ _ _ _ _ _ _ _ => rfl, by decide,
   hash_ne_of_hex_ne actNoneVar_hex actBase_hex (by decide)⟩

/-! ## Claim C7: session management (`LitSignerService.ensure_connected`)

The mutable service state (`client`, `session_sigs`, `session_expiry`) is made
explicit; `datetime` values are seconds.  The oracle interaction
(`get_session_sigs`) is an input: the fresh signatures it would return. -/

/-- The mutable state of `LitSignerService` relevant to sessions. -/
structure LitServiceState where
  hasClient : Bool
  session_sigs : Option String
  session_expiry : Option Nat
  deriving DecidableEq

/-- What one `ensure_connected` call did. -/
structure EnsureOutcome where
  state : LitServiceState
  createdClient : Bool
  reauthorized : Bool
  requestedExpiration : Option String
  deriving DecidableEq

/-- Line 132: `self.session_sigs is None or (self.session_expiry and now >= self.session_expiry)`. -/
def needs_new_session (st : LitServiceState) (now : Nat) : Bool :=
  st.session_sigs.isNone ||
    (match st.session_expiry with
     | some e => e ≤ now
     | none => false)

/-- `LitSignerService.ensure_connected` (server.py lines 114-150): connect the
client if absent; if no cached session signatures exist or the stored expiry
has passed, request fresh session signatures with a one-hour expiration
(`(now + timedelta(hours=1)).strftime("%Y-%m-%dT%H:%M:%SZ")`) and store an
expiry of 55 minutes (refresh before actual expiry); otherwise return with the
state untouched. -/
def ensure_connected (st : LitServiceState) (now : Nat) (freshSigs : String) : EnsureOutcome :=
  let createdClient := !st.hasClient
  if needs_new_session st now then
    { state := { hasClient := true, session_sigs := some freshSigs,
                 session_expiry := some (now + 55 * 60) }
      createdClient := createdClient
      reauthorized := true
      requestedExpiration := some (isoFromTimestamp (now + 3600) ++ "Z") }
  else
    { state := { hasClient := true, session_sigs := st.session_sigs,
                 session_expiry := st.session_expiry }
      createdClient := createdClient
      reauthorized := false
      requestedExpiration := none }

/-- Claim C7: `ensure_connected` is idempotent with a refresh safety margin.
With a client and cached session signatures whose stored expiry is still in the
future, it returns without reconnecting or reauthorizing and leaves the state
unchanged.  Otherwise it obtains fresh session signatures: the stored expiry is
55 minutes ahead while the requested grant expires 60 minutes ahead — the
session is treated as expired 5 minutes (300 s) before the one-hour grant ends.
A second call at the same instant never reauthorizes again. -/
theorem C7_ensure_session_idempotent (st : LitServiceState) (now : Nat)
    (sigs fresh : String) (e : Nat)
    (hclient : st.hasClient = true) (hsigs : st.session_sigs = some sigs)
    (hexp : st.session_expiry = some e) (hnow : now < e) :
    ((ensure_connected st now fresh).state = st ∧
     (ensure_connected st now fresh).reauthorized = false ∧
     (ensure_connected st now fresh).createdClient = false) ∧
    (∀ st' : LitServiceState, ∀ now' : Nat, ∀ f : String,
      needs_new_session st' now' = true →
      (ensure_connected st' now' f).state.session_sigs = some f ∧
      (ensure_connected st' now' f).state.session_expiry = some (now' + 55 * 60) ∧
      (ensure_connected st' now' f).reauthorized = true ∧
      (ensure_connected st' now' f).requestedExpiration =
        some (isoFromTimestamp (now' + 55 * 60 + 5 * 60) ++ "Z")) ∧
    (∀ st' : LitServiceState, ∀ now' : Nat, ∀ f f' : String,
      (ensure_connected (ensure_connected st' now' f).state now' f').reauthorized = false) := by
  refine ⟨?_, ?_, ?_⟩
  · have hneed : needs_new_session st now = false := by
      simp [needs_new_session, hsigs, hexp]
      omega
    obtain ⟨hc, hs, he⟩ := st
    simp only [LitServiceState.mk.injEq] at *
    subst hclient hsigs hexp
    simp [ensure_connected, hneed]
  · intro st' now' f hneed
    simp [ensure_connected, hneed]
  · intro st' now' f f'
    have key : ∀ st'' : LitServiceState, needs_new_session st'' now' = false →
        (ensure_connected st'' now' f').reauthorized = false := by
      intro st'' h
      simp [ensure_connected, h]
    have hmargin : ¬ now' + 55 * 60 ≤ now' := by omega
    by_cases hneed : needs_new_session st' now' = true
    · apply key
      have hstate : (ensure_connected st' now' f).state =
          { hasClient := true, session_sigs := some f,
            session_expiry := some (now' + 55 * 60) } := by
        simp [ensure_connected, hneed]
      rw [hstate]
      simp [needs_new_session, hmargin]
    · simp only [Bool.not_eq_true] at hneed
      apply key
      simp only [ensure_connected, hneed, Bool.false_eq_true, if_false]
      simp [needs_new_session] at hneed ⊢
      exact hneed

theorem C7_witness :
    (((ensure_connected ⟨true, some "s", some 100⟩ 50 "f").state = ⟨true, some "s", some 100⟩ ∧
      (ensure_connected ⟨true, some "s", some 100⟩ 50 "f").reauthorized = false ∧
      (ensure_connected ⟨true, some "s", some 100⟩ 50 "f").createdClient = false) ∧
     (∀ st' : LitServiceState, ∀ now' : Nat, ∀ f : String,
       needs_new_session st' now' = true →
       (ensure_connected st' now' f).state.session_sigs = some f ∧
       (ensure_connected st' now' f).state.session_expiry = some (now' + 55 * 60) ∧
       (ensure_connected st' now' f).reauthorized = true ∧
       (ensure_connected st' now' f).requestedExpiration =
         some (isoFromTimestamp (now' + 55 * 60 + 5 * 60) ++ "Z")) ∧
     (∀ st' : LitServiceState, ∀ now' : Nat, ∀ f f' : String,
       (ensure_connected (ensure_connected st' now' f).state now' f').reauthorized = false)) ∧
    (50 : Nat) < 100 :=
  ⟨C7_ensure_session_idempotent ⟨true, some "s", some 100⟩ 50 "s" "f" 100
    rfl rfl rfl (by decide), by decide⟩

/-! ## Claims C8-C10: gas policy, receipt handling, authentication

The chain oracles (nonce, base fee, gas estimation, signing, receipt) are
inputs to the flows; the broadcast side effect is made explicit as the list of
raw transactions handed to `eth_sendRawTransaction`. -/

/-- A transaction receipt as the flows read it. -/
structure Receipt where
  status : Nat
  blockNumber : Nat
  gasUsed : Nat
  deriving DecidableEq

/-- Gas limit and fees of `anchor_my_state` (anchor_state_tool.py lines
163-168): `tx['gas'] = w3.eth.estimate_gas(tx)` — an `Except` input since the
estimation call raises when the simulated transaction reverts — then
`priority_fee = w3.to_wei(0.001, 'gwei')` (`= 10^6` wei) and
`maxFeePerGas = base_fee * 2 + priority_fee`. -/
structure LegacyFees where
  gas : Nat
  maxFeePerGas : Nat
  maxPriorityFeePerGas : Nat
  deriving DecidableEq

def anchor_my_state_gas_fees (estimate : Except String Nat) (base_fee : Nat) :
    Except String LegacyFees :=
  match estimate with
  | .error e => .error e
  | .ok g => .ok { gas := g, maxFeePerGas := base_fee * 2 + 1000000,
                   maxPriorityFeePerGas := 1000000 }

/-- The tail of `anchor_my_state` (lines 163-176): set gas and fees (an
estimation failure raises and is returned as the error string by the enclosing
handler, before any signing), sign and broadcast, then fail unless the receipt
status is 1.  The second component lists the raw transactions broadcast. -/
def anchor_my_state_submit (estimate : Except String Nat) (base_fee : Nat)
    (signRaw : LegacyFees → List Nat) (receipt : Receipt) :
    Except String Receipt × List (List Nat) :=
  match anchor_my_state_gas_fees estimate base_fee with
  | .error e => (.error e, [])
  | .ok fees =>
    let raw := signRaw fees
    if receipt.status = 1 then (.ok receipt, [raw]) else (.error "Transaction failed", [raw])

/-- Claim C8 is false on the code: the PKP server's transaction builder
(`build_anchor_transaction`, server.py line 167) sets the gas limit to the
constant 200000 — it has no caller-supplied gas parameter and performs no
simulation call, so at these two concrete inputs (different nonces, base fees,
tokens, hashes and URIs) the gas limit is 200000 both times. -/
theorem C8_counterexample :
    (build_anchor_transaction addrA 0 0 1 (List.replicate 32 0) "u").gas = 200000 ∧
    (build_anchor_transaction addrA 99 77 2 (List.replicate 32 1) "v").gas = 200000 :=
  ⟨rfl, rfl⟩

/-- Claim C8 amended: in the PKP signing server the gas limit is the constant
200000, with no simulation; in the Letta anchor tool (`anchor_my_state`) the
gas limit does come from the `eth_estimateGas` simulation, and if the
estimation raises (the transaction would revert) the flow returns the error
before anything is signed or broadcast. -/
theorem C8_amended_gas_policy :
    (∀ ca : List Nat, ∀ n bf tk : Nat, ∀ sh : List Nat, ∀ su : String,
      (build_anchor_transaction ca n bf tk sh su).gas = 200000) ∧
    (∀ msg : String, ∀ bf : Nat, ∀ signRaw : LegacyFees → List Nat, ∀ receipt : Receipt,
      anchor_my_state_submit (.error msg) bf signRaw receipt = (.error msg, [])) ∧
    (∀ g bf : Nat,
      anchor_my_state_gas_fees (.ok g) bf =
        .ok { gas := g, maxFeePerGas := bf * 2 + 1000000, maxPriorityFeePerGas := 1000000 }) :=
  ⟨fun _ _ _ _ _ _ => rfl, fun _ _ _ _ => rfl, fun _ _ => rfl⟩

/-- Module-level normalization of `MCP_API_KEY` (server.py lines 50-57): an
unset or empty environment value leaves the server without a configured key. -/
def init_mcp_key (env : Option String) : Option String :=
  match env with
  | some s => if s = "" then none else some s
  | none => none

/-- `verify_api_key` (server.py lines 60-68): fail secure when no key is
configured, reject a missing key, else constant-time comparison. -/
def verify_api_key (mcpKey provided : Option String) : Bool :=
  match mcpKey, provided with
  | none, _ => false
  | _, none => false
  | some k, some p => p == k

/-- `effective_key = api_key if api_key else MCP_API_KEY` (lines 318 and 444):
Python truthiness makes both `None` and the empty string fall back. -/
def effective_key (mcpKey api_key : Option String) : Option String :=
  match api_key with
  | some s => if s = "" then mcpKey else some s
  | none => mcpKey

/-- Input validation of `anchor_state_via_pkp` (line 327):
`state_hash.startswith('0x') and len(state_hash) == 66`. -/
def valid_state_hash (s : String) : Bool :=
  (match s.data with
   | c₁ :: c₂ :: _ => c₁ == '0' && c₂ == 'x'
   | _ => false) && s.length == 66

/-- The outcome of one `anchor_state_via_pkp` call. -/
inductive ToolResult where
  | authError : ToolResult
  | formatError : ToolResult
  | signError : ToolResult
  | ok : Receipt → ToolResult
  | reverted : Receipt → ToolResult
  deriving DecidableEq

/-- `anchor_state_via_pkp` (server.py lines 292-375) as a function of its
oracle inputs: authenticate (before anything is built, signed or broadcast),
validate the hash format, build the transaction, require a signature from the
oracle, broadcast exactly once, and report success iff the receipt status is 1
(a non-1 status yields the reverted error carrying the receipt; there is no
retry loop).  The second component lists the raw transactions broadcast. -/
def anchor_state_via_pkp_flow (env_mcp_key api_key : Option String)
    (contract_address : List Nat) (token_id : Nat) (state_hash state_uri : String)
    (nonce base_fee : Nat) (sign_result : Option Sig) (receipt : Receipt) :
    ToolResult × List (List Nat) :=
  let mcpKey := init_mcp_key env_mcp_key
  if verify_api_key mcpKey (effective_key mcpKey api_key) then
    if valid_state_hash state_hash then
      let sh := hexToBytes (state_hash.data.drop 2)
      let tx := build_anchor_transaction contract_address nonce base_fee token_id sh state_uri
      match sign_result with
      | none => (.signError, [])
      | some sig =>
        let raw := serialize_signed_tx tx sig
        if receipt.status = 1 then (.ok receipt, [raw]) else (.reverted receipt, [raw])
    else (.formatError, [])
  else (.authError, [])

/-- Claim C9: after broadcast and confirmation the pipeline reports success if
and only if the receipt status equals 1; a non-success status produces the
reverted error carrying the receipt; and the flow never broadcasts more than
one transaction (no automatic retry or rebroadcast). -/
theorem C9_receipt_status_terminal (envk apik : Option String) (ca : List Nat)
    (tk : Nat) (sh su : String) (nonce bf : Nat) (sig : Sig) (receipt : Receipt)
    (hauth : verify_api_key (init_mcp_key envk)
      (effective_key (init_mcp_key envk) apik) = true)
    (hsh : valid_state_hash sh = true) :
    ((anchor_state_via_pkp_flow envk apik ca tk sh su nonce bf (some sig) receipt).1 =
        .ok receipt ↔ receipt.status = 1) ∧
    (receipt.status ≠ 1 →
      (anchor_state_via_pkp_flow envk apik ca tk sh su nonce bf (some sig) receipt).1 =
        .reverted receipt) ∧
    (anchor_state_via_pkp_flow envk apik ca tk sh su nonce bf (some sig) receipt).2.length ≤ 1 := by
  by_cases hst : receipt.status = 1
  · refine ⟨?_, fun h => absurd hst h, ?_⟩ <;>
      simp [anchor_state_via_pkp_flow, hauth, hsh, hst]
  · refine ⟨?_, fun _ => ?_, ?_⟩ <;>
      simp [anchor_state_via_pkp_flow, hauth, hsh, hst]

theorem C9_witness :
    verify_api_key (init_mcp_key (some "k")) (effective_key (init_mcp_key (some "k")) none) = true ∧
    valid_state_hash ("0x" ++ String.mk (List.replicate 64 (Char.ofNat 97))) = true ∧
    (((anchor_state_via_pkp_flow (some "k") none addrA 1
        ("0x" ++ String.mk (List.replicate 64 (Char.ofNat 97))) "u" 0 0 (some ⟨1, 2, 0⟩)
        ⟨1, 5, 21000⟩).1 = .ok ⟨1, 5, 21000⟩ ↔ (Receipt.mk 1 5 21000).status = 1) ∧
     ((Receipt.mk 1 5 21000).status ≠ 1 →
       (anchor_state_via_pkp_flow (some "k") none addrA 1
         ("0x" ++ String.mk (List.replicate 64 (Char.ofNat 97))) "u" 0 0 (some ⟨1, 2, 0⟩)
         ⟨1, 5, 21000⟩).1 = .reverted ⟨1, 5, 21000⟩) ∧
     (anchor_state_via_pkp_flow (some "k") none addrA 1
       ("0x" ++ String.mk (List.replicate 64 (Char.ofNat 97))) "u" 0 0 (some ⟨1, 2, 0⟩)
       ⟨1, 5, 21000⟩).2.length ≤ 1) :=
  ⟨by decide, by decide,
   C9_receipt_status_terminal (some "k") none addrA 1
     ("0x" ++ String.mk (List.replicate 64 (Char.ofNat 97))) "u" 0 0 ⟨1, 2, 0⟩
     ⟨1, 5, 21000⟩ (by decide) (by decide)⟩

theorem verify_api_key_none (p : Option String) : verify_api_key none p = false := by
  cases p <;> rfl

/-- Claim C10: when the `api_key` argument is absent or empty, the effective
key falls back to the server's configured `MCP_API_KEY`, so such a call passes
authentication exactly when a server key is configured; and when `MCP_API_KEY`
is unset (or empty, which the server normalizes to unset), every call — with
any `api_key` value whatsoever — is rejected with the authentication error
before anything is built, signed or broadcast. -/
theorem C10_api_key_fallback (envk apik any_key : Option String) (ca : List Nat)
    (tk : Nat) (sh su : String) (nonce bf : Nat) (sign_result : Option Sig)
    (receipt : Receipt) (hempty : apik = none ∨ apik = some "") :
    (verify_api_key (init_mcp_key envk) (effective_key (init_mcp_key envk) apik) =
      (init_mcp_key envk).isSome) ∧
    (init_mcp_key envk = none →
      anchor_state_via_pkp_flow envk any_key ca tk sh su nonce bf sign_result receipt =
        (.authError, [])) := by
  constructor
  · rcases hempty with rfl | rfl <;>
    · cases envk with
      | none => rfl
      | some s =>
        by_cases hs : s = "" <;> simp [init_mcp_key, effective_key, verify_api_key, hs]
  · intro hnone
    simp [anchor_state_via_pkp_flow, hnone, verify_api_key_none]

theorem C10_witness :
    ((verify_api_key (init_mcp_key (some "sk"))
        (effective_key (init_mcp_key (some "sk")) none) = (init_mcp_key (some "sk")).isSome) ∧
     (init_mcp_key (some "sk") = none →
       anchor_state_via_pkp_flow (some "sk") (some "wrong") addrA 1 "h" "u" 0 0 none ⟨1, 1, 1⟩ =
         (.authError, []))) ∧
    ((verify_api_key (init_mcp_key none)
        (effective_key (init_mcp_key none) (some "")) = (init_mcp_key none).isSome) ∧
     (init_mcp_key none = none →
       anchor_state_via_pkp_flow none (some "anything") addrA 1 "h" "u" 0 0 none ⟨1, 1, 1⟩ =
         (.authError, []))) :=
  ⟨C10_api_key_fallback (some "sk") none (some "wrong") addrA 1 "h" "u" 0 0 none ⟨1, 1, 1⟩
     (Or.inl rfl),
   C10_api_key_fallback none (some "") (some "anything") addrA 1 "h" "u" 0 0 none ⟨1, 1, 1⟩
     (Or.inr rfl)⟩
